import Mathlib

/-!
Shallow embedding of `openssh_wrapper.py` (NetAngels/openssh-wrapper).

Modelling conventions, running on Python 3 (on this codebase the
`sys.version[0] == 2` test at module top compares a character to an int and
is always false, so the Python-3 branch `text = str` is taken):

* Python `str` and `bytes` values are both carried as Lean `String`s holding
  their character content; the constructor `PyVal` remembers which Python
  type a value has, because `b`, `str()` and `%s`-formatting distinguish them.
* Exceptions become `Except PyErr`; `PyErr` separates the module's own
  `SSHError` from the builtin `ValueError`, `AttributeError`, `OSError` and
  `IOError` that the code can also raise.
* The filesystem (`os.path.isfile`, `os.path.expanduser`) is passed in as
  function parameters; `os.path.join` / `os.path.basename` are modelled by
  `posixJoin` / `basename` following posixpath semantics.
* The outcome of `subprocess` communication (child exit code, captured
  stdout/stderr, or the `IOError` raised when the SIGALRM handler fires) is
  an explicit `CommEvent` parameter; side effects on the alarm and on the
  child process are recorded as an `Action` trace.
* `bytes.strip()` / `str.strip()` is modelled by `pyStrip`, which drops
  the six Python whitespace characters from both ends.
-/

/-- PyVal is a Python value as far as this module distinguishes values:
a text string, a byte string (content carried as a `String`), or an int. -/
inductive PyVal where
  | pstr (s : String)
  | pbytes (s : String)
  | pint (n : Int)
deriving DecidableEq, Repr

/-- PyErr distinguishes the module's single exception class `SSHError`
from the Python builtin exceptions this code can also raise. -/
inductive PyErr where
  | sshError (msg : String)
  | valueError (msg : String)
  | attributeError (msg : String)
  | osError (msg : String)
deriving DecidableEq, Repr

/-- isSpaceChar is the whitespace set of Python `strip()`: space, tab,
newline, carriage return, vertical tab and form feed. -/
def isSpaceChar (c : Char) : Bool :=
  c = Char.ofNat 32 || c = Char.ofNat 9 || c = Char.ofNat 10 ||
  c = Char.ofNat 13 || c = Char.ofNat 11 || c = Char.ofNat 12

/-- pyStrip models `str.strip()` / `bytes.strip()` with no argument:
remove leading and trailing whitespace. -/
def pyStrip (s : String) : String :=
  ⟨((s.data.dropWhile isSpaceChar).reverse.dropWhile isSpaceChar).reverse⟩

/-- isSSHError decides whether an exception is the module's own error type. -/
def isSSHError : PyErr → Bool
  | .sshError _ => true
  | _ => false

/-- squote is the apostrophe character as a one-character string. -/
def squote : String := String.singleton (Char.ofNat 39)

/-- pyStr models the Python-3 `str()` builtin (also used by `%s` string
formatting) on the values this module feeds it: identity on text, the
`repr` form on bytes (exact for byte strings that need no escapes, which
covers validated server names), decimal rendering on ints. -/
def pyStr : PyVal → String
  | .pstr s => s
  | .pbytes s => "b" ++ squote ++ s ++ squote
  | .pint n => toString n

/-- pyTruthy models Python truthiness on `PyVal`: empty strings and zero
are falsy. -/
def pyTruthy : PyVal → Bool
  | .pstr s => !s.isEmpty
  | .pbytes s => !s.isEmpty
  | .pint n => n != 0

/-- Embedding of `b(string)` (openssh_wrapper.py lines 24-30): bytes pass
through, text is utf-8 encoded; any other value (e.g. an int port) has no
`.encode` attribute and raises `AttributeError`. -/
def b : PyVal → Except PyErr String
  | .pbytes s => .ok s
  | .pstr s => .ok s
  | .pint _ => .error (.attributeError "int object has no attribute encode")

/-- Embedding of `b_list(items)` (lines 42-46): the list comprehension
`[b(item) for item in items]`, propagating the first exception. -/
def b_list : List PyVal → Except PyErr (List String)
  | [] => .ok []
  | v :: vs =>
    match b v with
    | .error e => .error e
    | .ok s =>
      match b_list vs with
      | .error e => .error e
      | .ok ss => .ok (s :: ss)

/-- PyIter is the `files` argument of `scp_command`: either a proper list
of values or a single scalar string (the misuse case). -/
inductive PyIter where
  | plist (items : List PyVal)
  | pstring (s : String)
deriving DecidableEq, Repr

/-- isStringIter models `isinstance(x, (text, bytes))` on a `PyIter`. -/
def isStringIter : PyIter → Bool
  | .pstring _ => true
  | .plist _ => false

/-- b_list_iter is `b_list` applied to a `PyIter`: on a list it converts
each element; on a string, Python iteration yields the characters, each a
one-character string that `b` encodes successfully. -/
def b_list_iter : PyIter → Except PyErr (List String)
  | .plist vs => b_list vs
  | .pstring s => .ok (s.data.map (fun c => String.singleton c))

/-- allowedChar is membership in the regex character class
`[a-zA-Z0-9.\-_]` used by `check_server` / `check_login`. -/
def allowedChar (c : Char) : Bool :=
  (c ≥ Char.ofNat 97 && c ≤ Char.ofNat 122) ||
  (c ≥ Char.ofNat 65 && c ≤ Char.ofNat 90) ||
  (c ≥ Char.ofNat 48 && c ≤ Char.ofNat 57) ||
  c = Char.ofNat 46 || c = Char.ofNat 45 || c = Char.ofNat 95

/-- classMatch holds when the character list is a nonempty run of allowed
characters (what `[a-zA-Z0-9.\-_]+` can consume). -/
def classMatch (l : List Char) : Bool :=
  !l.isEmpty && l.all allowedChar

/-- pyAnchoredMatch models the semantics of
`re.compile(the anchored character-class pattern).match(s) is not None` under Python
`re`: without `re.MULTILINE`, the `$` anchor matches at the end of the
string or just before one trailing newline, so `s` matches exactly when
`s` is a nonempty run of allowed characters, optionally followed by a
single final newline. -/
def pyAnchoredMatch (s : String) : Bool :=
  classMatch s.data ||
    (match s.data.getLast? with
     | some c => if c = Char.ofNat 10 then classMatch s.data.dropLast else false
     | none => false)

/-- SSHConnection mirrors the state a constructed `SSHConnection` object
holds: `server` and `login` are the byte contents stored by `b(...)`,
`configfile` / `identity_file` the expanded paths (or `none`), `port` the
constructor argument stored verbatim (so it keeps its Python type). -/
structure SSHConnection where
  server : String
  login : Option String
  port : Option PyVal
  configfile : Option String
  identity_file : Option String
  ssh_agent_socket : Option String
  timeout : Nat
deriving DecidableEq, Repr

/-- initIdent is the identity-file tail of the constructor
(lines 112-118): expand a truthy path, require it to exist, store it. -/
def initIdent (isfile : String → Bool) (expanduser : String → String)
    (server : String) (lo : Option String) (port : Option PyVal)
    (cf : Option String) (identity_file : Option String)
    (sock : Option String) (timeout : Nat) : Except PyErr SSHConnection :=
  match identity_file with
  | some f =>
    if !f.isEmpty then
      let idf := expanduser f
      if !isfile idf then
        .error (.sshError ("Key file " ++ idf ++ " is not found"))
      else .ok ⟨server, lo, port, cf, some idf, sock, timeout⟩
    else .ok ⟨server, lo, port, cf, none, sock, timeout⟩
  | none => .ok ⟨server, lo, port, cf, none, sock, timeout⟩

/-- initFiles is the config-file step of the constructor (lines 106-111). -/
def initFiles (isfile : String → Bool) (expanduser : String → String)
    (server : String) (lo : Option String) (port : Option PyVal)
    (configfile : Option String) (identity_file : Option String)
    (sock : Option String) (timeout : Nat) : Except PyErr SSHConnection :=
  match configfile with
  | some f =>
    if !f.isEmpty then
      let cf := expanduser f
      if !isfile cf then
        .error (.sshError ("Config file " ++ cf ++ " is not found"))
      else initIdent isfile expanduser server lo port (some cf) identity_file sock timeout
    else initIdent isfile expanduser server lo port none identity_file sock timeout
  | none => initIdent isfile expanduser server lo port none identity_file sock timeout

/-- Embedding of `SSHConnection.__init__` (lines 74-118): store
`b(server)`, check the server name, check and store a truthy login,
then expand and existence-check config and identity files in that order.
The filesystem is the `isfile` / `expanduser` parameters. -/
def SSHConnection.init (isfile : String → Bool) (expanduser : String → String)
    (server : String) (login : Option String) (port : Option PyVal)
    (configfile : Option String) (identity_file : Option String)
    (sock : Option String) (timeout : Nat) : Except PyErr SSHConnection :=
  if !pyAnchoredMatch server then
    .error (.sshError "Server name contains illegal symbols")
  else
    match login with
    | some l =>
      if !l.isEmpty then
        if !pyAnchoredMatch l then
          .error (.sshError "User login contains illegal symbols")
        else initFiles isfile expanduser server (some l) port configfile identity_file sock timeout
      else initFiles isfile expanduser server none port configfile identity_file sock timeout
    | none => initFiles isfile expanduser server none port configfile identity_file sock timeout

/-- Embedding of `SSHConnection.ssh_command` (lines 324-344): the argv
built as data; truthiness tests mirror `if self.login:` etc., and the
port is rendered with `str(self.port)` before `b_list`. -/
def ssh_command (c : SSHConnection) (interpreter : String)
    (forward_ssh_agent : Bool) : Except PyErr (List String) :=
  let cmd : List PyVal :=
    [.pstr "/usr/bin/ssh"]
    ++ (match c.login with
        | some l => if !l.isEmpty then [.pstr "-l", .pbytes l] else []
        | none => [])
    ++ (match c.configfile with
        | some f => if !f.isEmpty then [.pstr "-F", .pstr f] else []
        | none => [])
    ++ (match c.identity_file with
        | some f => if !f.isEmpty then [.pstr "-i", .pstr f] else []
        | none => [])
    ++ (if forward_ssh_agent then [.pstr "-A"] else [])
    ++ (match c.port with
        | some p => if pyTruthy p then [.pstr "-p", .pstr (pyStr p)] else []
        | none => [])
    ++ [.pbytes c.server, .pbytes interpreter]
  b_list cmd

/-- sshArgv is the string vector `ssh_command` is claimed to produce,
spelled out without going through `b`. -/
def sshArgv (c : SSHConnection) (interpreter : String)
    (forward_ssh_agent : Bool) : List String :=
  ["/usr/bin/ssh"]
  ++ (match c.login with
      | some l => if !l.isEmpty then ["-l", l] else []
      | none => [])
  ++ (match c.configfile with
      | some f => if !f.isEmpty then ["-F", f] else []
      | none => [])
  ++ (match c.identity_file with
      | some f => if !f.isEmpty then ["-i", f] else []
      | none => [])
  ++ (if forward_ssh_agent then ["-A"] else [])
  ++ (match c.port with
      | some p => if pyTruthy p then ["-p", pyStr p] else []
      | none => [])
  ++ [c.server, interpreter]

/-- Embedding of `SSHConnection.scp_command` (lines 346-372), statement
for statement: `files = b_list(files)` runs first and rebinds `files` to
a list, so the later `isinstance(files, (text, bytes))` guard tests the
rebound list and can never fire; the `-P` pair appends `self.port`
unconverted, so the final `b_list` is where an int port raises; the
remote name is `%s`-formatted, which on a bytes server (no login) yields
the bytes repr. -/
def scp_command (c : SSHConnection) (files : PyIter) (target : String) :
    Except PyErr (List String) :=
  match b_list_iter files with
  | .error e => .error e
  | .ok filesB =>
    let remotename : PyVal :=
      match c.login with
      | some l =>
        if !l.isEmpty then .pstr (l ++ "@" ++ c.server) else .pbytes c.server
      | none => .pbytes c.server
    let cmd : List PyVal :=
      [.pstr "/usr/bin/scp", .pstr "-q", .pstr "-r"]
      ++ (match c.configfile with
          | some f => if !f.isEmpty then [.pstr "-F", .pstr f] else []
          | none => [])
      ++ (match c.identity_file with
          | some f => if !f.isEmpty then [.pstr "-i", .pstr f] else []
          | none => [])
      ++ (match c.port with
          | some p => if pyTruthy p then [.pstr "-P", p] else []
          | none => [])
    if isStringIter (.plist (filesB.map .pbytes)) then
      .error (.valueError "\"files\" argument have to be iterable (list or tuple)")
    else if filesB.length < 1 then
      .error (.valueError "You should name at least one file to copy")
    else
      b_list (cmd ++ filesB.map .pbytes
        ++ [.pstr (pyStr remotename ++ ":" ++ target)])

/-- SSHResult mirrors the `SSHResult` object (lines 390-410). -/
structure SSHResult where
  command : String
  stdout : String
  stderr : String
  returncode : Int
deriving DecidableEq, Repr

/-- CommEvent is what `pipe.communicate()` does in one invocation: the
child completes normally with captured streams and an exit code, the
SIGALRM deadline elapses (the installed `_timeout_handler` raises
`IOError` with the fixed message), or some other local `IOError` occurs. -/
inductive CommEvent where
  | completed (out err : String) (returncode : Int)
  | timedOut
  | ioError (msg : String)
deriving DecidableEq, Repr

/-- Act records the externally visible side effects of one `run` /
`scp` invocation on the child process and the process-wide alarm. -/
inductive Act where
  | spawn
  | armAlarm (seconds : Nat)
  | killChild
  | disarmAlarm
deriving DecidableEq, Repr

/-- alarmArmedAfter replays a trace and tells whether the SIGALRM deadline
is still armed once the call has returned or its error has propagated. -/
def alarmArmedAfter (trace : List Act) : Bool :=
  trace.foldl
    (fun st a =>
      match a with
      | .armAlarm _ => true
      | .disarmAlarm => false
      | _ => st)
    false

/-- Embedding of `SSHConnection.run` (lines 142-186): build the argv,
spawn, arm `signal.alarm(self.timeout)`, communicate.  A timeout or other
`IOError` kills the child, disarms the alarm and raises `SSHError`; on
normal completion the alarm is disarmed, exit code 255 raises
`SSHError(err.strip())`, and any other code returns an `SSHResult` with
stripped streams.  Returns the result paired with the action trace. -/
def run (c : SSHConnection) (command interpreter : String)
    (forward_ssh_agent : Bool) (ev : CommEvent) :
    Except PyErr SSHResult × List Act :=
  match ssh_command c interpreter forward_ssh_agent with
  | .error e => (.error e, [])
  | .ok _ =>
    let pre : List Act := [.spawn, .armAlarm c.timeout]
    match ev with
    | .timedOut =>
      (.error (.sshError "SSH connect timeout"), pre ++ [.killChild, .disarmAlarm])
    | .ioError msg =>
      (.error (.sshError msg), pre ++ [.killChild, .disarmAlarm])
    | .completed out err rc =>
      if rc = 255 then
        (.error (.sshError (pyStrip err)), pre ++ [.disarmAlarm])
      else
        (.ok ⟨command, pyStrip out, pyStrip err, rc⟩, pre ++ [.disarmAlarm])

/-- runRes is the value/exception part of `run`, with the trace dropped. -/
def runRes (c : SSHConnection) (command interpreter : String)
    (forward_ssh_agent : Bool) (ev : CommEvent) : Except PyErr SSHResult :=
  (run c command interpreter forward_ssh_agent ev).1

/-- shSafeChar is the character class `pipes.quote` leaves unquoted
(ASCII word characters plus at-sign, percent, plus, equals, colon, comma, dot, slash and dash). -/
def shSafeChar (c : Char) : Bool :=
  allowedChar c || c = Char.ofNat 64 || c = Char.ofNat 37 || c = Char.ofNat 43 ||
  c = Char.ofNat 61 || c = Char.ofNat 58 || c = Char.ofNat 44 || c = Char.ofNat 47

/-- shQuote models `pipes.quote`: safe strings pass through, the empty
string and anything else are wrapped in single quotes, with embedded
single quotes spliced as the five-character sequence quote-dquote-quote-
dquote-quote. -/
def shQuote (s : String) : String :=
  if s.isEmpty then squote ++ squote
  else if s.data.all shSafeChar then s
  else squote ++ s.replace squote (squote ++ "\x22" ++ squote ++ "\x22" ++ squote) ++ squote

/-- b_quote embeds `b_quote(cmd_chunks)` (lines 56-65): quote each chunk
with `pipes.quote` and join the results with single spaces. -/
def b_quote (chunks : List String) : String :=
  String.intercalate " " (chunks.map shQuote)

/-- basename models `os.path.basename` on posix paths: the part after the
last slash. -/
def basename (p : String) : String :=
  ⟨(p.data.reverse.takeWhile (fun c => c ≠ Char.ofNat 47)).reverse⟩

/-- posixJoin models `os.path.join` on posix paths for two components: an
absolute second component wins, otherwise a separating slash is inserted
unless the first component is empty or already ends in one. -/
def posixJoin (a bn : String) : String :=
  if bn.data.head? = some (Char.ofNat 47) then bn
  else if a.data = [] || a.data.getLast? = some (Char.ofNat 47) then a ++ bn
  else a ++ String.singleton (Char.ofNat 47) ++ bn

/-- Embedding of `SSHConnection.get_scp_targets` (lines 297-322): run
`test -d <quoted target>` remotely (its communication outcome is the
`probeEv` parameter; a 255 exit or timeout in that `run` propagates as
`SSHError`), then join each basename under the target on exit 0, else
return the literal target. -/
def get_scp_targets (c : SSHConnection) (probeEv : CommEvent)
    (filenames : List String) (target : String) : Except PyErr (List String) :=
  match runRes c ("test -d " ++ shQuote target) "/bin/bash" false probeEv with
  | .error e => .error e
  | .ok result =>
    if result.returncode = 0 then
      .ok (filenames.map (fun fn => posixJoin target (basename fn)))
    else
      .ok [target]

/-- ScpEnv fixes the external world for one `scp` invocation: whether
`subprocess.Popen` succeeds, the scp child's communication outcome, and
the communication outcomes of the up-to-three nested `run` calls (the
`test -d` probe, the remote chmod, the remote chown). -/
structure ScpEnv where
  spawnOk : Bool
  comm : CommEvent
  probeEv : CommEvent
  chmodEv : CommEvent
  chownEv : CommEvent
deriving DecidableEq, Repr

/-- optTruthy models Python truthiness of an optional string argument
(`if mode or owner:`, `if mode:`, `if owner:`): absent or empty is falsy. -/
def optTruthy : Option String → Bool
  | some s => !s.isEmpty
  | none => false

/-- scpChown is the `if owner:` block of `scp` (lines 252-258) plus the
final `cleanup_tmp_dir()` (line 259).  `clean` is 1 when a temp directory
exists to remove, 0 otherwise; the second component counts removals. -/
def scpChown (c : SSHConnection) (env : ScpEnv) (targets : List String)
    (owner : Option String) (clean : Nat) : Except PyErr Unit × Nat :=
  if optTruthy owner then
    match runRes c (b_quote (["chown", owner.getD ""] ++ targets)) "/bin/bash" false env.chownEv with
    | .error e => (.error e, 0)
    | .ok r =>
      if r.returncode ≠ 0 then (.error (.sshError (pyStrip r.stderr)), clean)
      else (.ok (), clean)
  else (.ok (), clean)

/-- scpPost is the `if mode or owner:` block of `scp` (lines 243-258):
compute the remote targets via `get_scp_targets` (whose `SSHError`, if
any, propagates without touching the temp directory), then run chmod and
chown remotely, cleaning up only on their nonzero exit codes. -/
def scpPost (c : SSHConnection) (env : ScpEnv) (filenames : List String)
    (target : String) (mode owner : Option String) (clean : Nat) :
    Except PyErr Unit × Nat :=
  match get_scp_targets c env.probeEv filenames target with
  | .error e => (.error e, 0)
  | .ok targets =>
    if optTruthy mode then
      match runRes c (b_quote (["chmod", mode.getD ""] ++ targets)) "/bin/bash" false env.chmodEv with
      | .error e => (.error e, 0)
      | .ok r =>
        if r.returncode ≠ 0 then (.error (.sshError (pyStrip r.stderr)), clean)
        else scpChown c env targets owner clean
    else scpChown c env targets owner clean

/-- Embedding of `SSHConnection.scp` (lines 188-259).  The result of
`convert_files_to_filenames` is abstracted as the `filenames` list plus
the flag `tmpCreated` (whether a temp directory was made for stream
sources).  The second component of the result counts how many times
`cleanup_tmp_dir` actually removed the temp directory: `scp_command`
errors and `Popen` failure happen before any cleanup handler runs, and
an `SSHError` raised inside the probe/chmod/chown `run` calls propagates
without cleanup. -/
def scp (c : SSHConnection) (env : ScpEnv) (filenames : List String)
    (tmpCreated : Bool) (target : String) (mode owner : Option String) :
    Except PyErr Unit × Nat :=
  let clean : Nat := if tmpCreated then 1 else 0
  match scp_command c (.plist (filenames.map .pstr)) target with
  | .error e => (.error e, 0)
  | .ok _ =>
    if !env.spawnOk then (.error (.osError "No such file or directory"), 0)
    else
      match env.comm with
      | .timedOut => (.error (.sshError "SSH connect timeout"), clean)
      | .ioError msg => (.error (.sshError msg), clean)
      | .completed _ err rc =>
        if rc ≠ 0 then (.error (.sshError (pyStrip err)), clean)
        else if optTruthy mode || optTruthy owner then
          scpPost c env filenames target mode owner clean
        else (.ok (), clean)

/-! Concrete connections used by the test-style theorems below; `connCfg`
is the connection that tests.py builds (config file assumed present, with
`expanduser` the identity). -/

/-- connRoot is a connection to localhost as root, no optional files. -/
def connRoot : SSHConnection := ⟨"localhost", some "root", none, none, none, none, 60⟩

/-- connNoLogin is a connection to localhost without a login. -/
def connNoLogin : SSHConnection := ⟨"localhost", none, none, none, none, none, 60⟩

/-- connCfg is the connection tests.py constructs. -/
def connCfg : SSHConnection :=
  ⟨"localhost", some "root", none, some "ssh_config.test", none, none, 60⟩

/-- ssh_command_eq evaluates the `b_list` in `ssh_command` away: the run
argv always converts, because every element is a text or byte string
(the port goes through `str()` first). -/
theorem ssh_command_eq (c : SSHConnection) (i : String) (f : Bool) :
    ssh_command c i f = .ok (sshArgv c i f) := by
  rcases c with ⟨srv, lo, po, cf, idf, sock, tmo⟩
  rcases lo with _ | l <;> rcases cf with _ | cfv <;> rcases idf with _ | iv <;>
    rcases po with _ | p <;> cases f <;>
      simp only [ssh_command, sshArgv] <;> split_ifs <;> rfl

/-- initIdent_err_iff characterizes when the identity-file step of the
constructor raises. -/
theorem initIdent_err_iff (isfile : String → Bool) (expanduser : String → String)
    (server : String) (lo : Option String) (port : Option PyVal)
    (cf : Option String) (idf : Option String) (sock : Option String) (tmo : Nat) :
    (∃ e, initIdent isfile expanduser server lo port cf idf sock tmo = .error e) ↔
      (∃ f, idf = some f ∧ f.isEmpty = false ∧ isfile (expanduser f) = false) := by
  rcases idf with _ | f
  · simp [initIdent]
  · by_cases h : f.isEmpty <;> by_cases h2 : isfile (expanduser f) <;>
      simp [initIdent, h, h2]

/-- initFiles_err_iff characterizes when the config-file-and-later part of
the constructor raises. -/
theorem initFiles_err_iff (isfile : String → Bool) (expanduser : String → String)
    (server : String) (lo : Option String) (port : Option PyVal)
    (cf : Option String) (idf : Option String) (sock : Option String) (tmo : Nat) :
    (∃ e, initFiles isfile expanduser server lo port cf idf sock tmo = .error e) ↔
      ((∃ f, cf = some f ∧ f.isEmpty = false ∧ isfile (expanduser f) = false)
       ∨ (∃ f, idf = some f ∧ f.isEmpty = false ∧ isfile (expanduser f) = false)) := by
  rcases cf with _ | f
  · simp [initFiles, initIdent_err_iff]
  · by_cases h : f.isEmpty <;> by_cases h2 : isfile (expanduser f) <;>
      simp [initFiles, h, h2, initIdent_err_iff]

/-- run_eq evaluates `run` to its case analysis over the communication
event, using that the run argv always builds. -/
theorem run_eq (c : SSHConnection) (command interpreter : String) (fwd : Bool)
    (ev : CommEvent) :
    run c command interpreter fwd ev =
      (match ev with
       | .timedOut => (.error (.sshError "SSH connect timeout"),
           [.spawn, .armAlarm c.timeout, .killChild, .disarmAlarm])
       | .ioError msg => (.error (.sshError msg),
           [.spawn, .armAlarm c.timeout, .killChild, .disarmAlarm])
       | .completed out err rc =>
         if rc = 255 then
           (.error (.sshError (pyStrip err)), [.spawn, .armAlarm c.timeout, .disarmAlarm])
         else
           (.ok ⟨command, pyStrip out, pyStrip err, rc⟩,
             [.spawn, .armAlarm c.timeout, .disarmAlarm])) := by
  unfold run
  rw [ssh_command_eq]
  cases ev <;> rfl

/-- b_list_map_pstr: converting a list of text strings never fails and
keeps the contents. -/
theorem b_list_map_pstr (l : List String) : b_list (l.map .pstr) = .ok l := by
  induction l with
  | nil => rfl
  | cons h t ih => simp [b_list, b, ih]

/-- b_list_iter_map_pstr restates `b_list_map_pstr` for the iterable
wrapper. -/
theorem b_list_iter_map_pstr (l : List String) :
    b_list_iter (.plist (l.map .pstr)) = .ok l := b_list_map_pstr l

/-- Sanity: the model reproduces `test_ssh_command` from tests.py. -/
theorem model_matches_test_ssh_command :
    ssh_command connCfg "/bin/bash" false
      = .ok ["/usr/bin/ssh", "-l", "root", "-F", "ssh_config.test",
          "localhost", "/bin/bash"] := rfl

/-- Sanity: the model reproduces `test_scp_command` from tests.py. -/
theorem model_matches_test_scp_command :
    scp_command connCfg (.plist [.pstr "/tmp/1.txt"]) "/tmp/2.txt"
      = .ok ["/usr/bin/scp", "-q", "-r", "-F", "ssh_config.test",
          "/tmp/1.txt", "root@localhost:/tmp/2.txt"] := rfl

/-- envProbe255 is a world where the scp transfer itself succeeds but the
remote `test -d` probe run exits with 255 (ssh client failure). -/
def envProbe255 : ScpEnv :=
  ⟨true, .completed "" "" 0, .completed "" "connect refused" 255,
   .completed "" "" 0, .completed "" "" 0⟩

/-- C1: with a temp directory created for stream sources and a mode
requested, an SSHError raised inside the `test -d` target probe
propagates out of `scp` with zero cleanup runs: the temporary directory
is leaked on this exit path, contradicting the claim that it is removed
exactly once on every exit path. -/
theorem scp_tmpdir_leaked_on_probe_error :
    scp connRoot envProbe255 ["file.txt"] true "/tmp" (some "0644") none
      = (.error (.sshError "connect refused"), 0) := rfl

/-- C2: when the child completes normally, exit code 255 raises
`SSHError` carrying stripped stderr, and every other exit code returns a
successful `SSHResult` carrying the command, stripped stdout, stripped
stderr and that code. -/
theorem run_exit_code_policy :
    ∀ (c : SSHConnection) (command interpreter : String) (fwd : Bool)
      (out err : String) (rc : Int),
    (rc = 255 → runRes c command interpreter fwd (.completed out err rc)
        = .error (.sshError (pyStrip err))) ∧
    (rc ≠ 255 → runRes c command interpreter fwd (.completed out err rc)
        = .ok ⟨command, pyStrip out, pyStrip err, rc⟩) := by
  intro c command interpreter fwd out err rc
  unfold runRes
  rw [run_eq]
  constructor <;> intro h <;> simp [h]

/-- C2 witness: the policy evaluated at exit codes 0 and 255. -/
theorem run_exit_code_policy_witness :
    runRes connRoot "whoami" "/bin/bash" false (.completed "root\n" "" 0)
      = .ok ⟨"whoami", "root", "", 0⟩
    ∧ runRes connRoot "whoami" "/bin/bash" false (.completed "" "boom" 255)
      = .error (.sshError "boom") := by
  constructor
  · exact (run_exit_code_policy connRoot "whoami" "/bin/bash" false "root\n" "" 0).2
      (by decide)
  · exact (run_exit_code_policy connRoot "whoami" "/bin/bash" false "" "boom" 255).1 rfl

/-- C3: on every communication outcome the alarm is disarmed by the time
`run` returns or its error propagates, and an elapsed deadline kills the
child and disarms the alarm (in that order, both before the `SSHError`
with the timeout message is produced). -/
theorem run_alarm_discipline :
    ∀ (c : SSHConnection) (command interpreter : String) (fwd : Bool) (ev : CommEvent),
    alarmArmedAfter (run c command interpreter fwd ev).2 = false ∧
    (ev = .timedOut →
      (run c command interpreter fwd ev).2
          = [.spawn, .armAlarm c.timeout, .killChild, .disarmAlarm] ∧
      (run c command interpreter fwd ev).1 = .error (.sshError "SSH connect timeout")) := by
  intro c command interpreter fwd ev
  rw [run_eq]
  cases ev with
  | completed out err rc =>
    refine ⟨?_, ?_⟩
    · by_cases h : rc = 255 <;> simp [h, alarmArmedAfter]
    · intro h; simp at h
  | timedOut => exact ⟨rfl, fun _ => ⟨rfl, rfl⟩⟩
  | ioError msg => exact ⟨rfl, fun h => by simp at h⟩

/-- C3 witness: the timed-out run on a concrete connection. -/
theorem run_alarm_discipline_witness :
    alarmArmedAfter (run connRoot "whoami" "/bin/bash" false .timedOut).2 = false
    ∧ (run connRoot "whoami" "/bin/bash" false .timedOut).2
        = [.spawn, .armAlarm 60, .killChild, .disarmAlarm]
    ∧ (run connRoot "whoami" "/bin/bash" false .timedOut).1
        = .error (.sshError "SSH connect timeout") := by
  have h := run_alarm_discipline connRoot "whoami" "/bin/bash" false .timedOut
  exact ⟨h.1, (h.2 rfl).1, (h.2 rfl).2⟩

/-- C4 counterexample: the host string of one letter followed by a
newline contains a character outside `[A-Za-z0-9._-]`, yet construction
succeeds, because Python's `$` anchor also matches just before one
trailing newline. -/
theorem init_accepts_newline_in_server :
    SSHConnection.init (fun _ => true) (fun s => s) "a\n" none none none none none 60
      = .ok ⟨"a\n", none, none, none, none, none, 60⟩
    ∧ ("a\n".data.all allowedChar) = false := ⟨rfl, by decide⟩

/-- C4 amended: construction fails (with the module's `SSHError`, the
only error the constructor raises) exactly when the host fails the
anchored class match (empty, or an illegal character anywhere except as
one trailing newline), a supplied nonempty login fails the same match,
or a supplied nonempty config/identity path does not exist after tilde
expansion. -/
theorem init_error_characterization :
    ∀ (isfile : String → Bool) (expanduser : String → String) (server : String)
      (login : Option String) (port : Option PyVal)
      (configfile identity_file sock : Option String) (tmo : Nat),
    (∃ e, SSHConnection.init isfile expanduser server login port configfile
        identity_file sock tmo = .error e) ↔
      (pyAnchoredMatch server = false
       ∨ (∃ l, login = some l ∧ l.isEmpty = false ∧ pyAnchoredMatch l = false)
       ∨ (∃ f, configfile = some f ∧ f.isEmpty = false ∧ isfile (expanduser f) = false)
       ∨ (∃ f, identity_file = some f ∧ f.isEmpty = false ∧ isfile (expanduser f) = false)) := by
  intro isfile expanduser server login port configfile identity_file sock tmo
  rcases login with _ | l
  · by_cases hs : pyAnchoredMatch server <;>
      simp [SSHConnection.init, hs, initFiles_err_iff]
  · by_cases hs : pyAnchoredMatch server <;> by_cases hl : l.isEmpty <;>
      by_cases hlm : pyAnchoredMatch l <;>
      simp [SSHConnection.init, hs, hl, hlm, initFiles_err_iff]

/-- C5 counterexample: a constructor-accepted connection with port 0 (an
integer, so the port is set) omits the `-p` pair, because the builder
tests Python truthiness, not being set. -/
theorem ssh_command_omits_p_for_zero_port :
    SSHConnection.init (fun _ => true) (fun s => s) "localhost" none (some (.pint 0))
        none none none 60
      = .ok ⟨"localhost", none, some (.pint 0), none, none, none, 60⟩
    ∧ ssh_command ⟨"localhost", none, some (.pint 0), none, none, none, 60⟩ "/bin/bash" false
      = .ok ["/usr/bin/ssh", "localhost", "/bin/bash"] := ⟨rfl, rfl⟩

/-- C5 amended: for every connection, `ssh_command` succeeds and produces
exactly `[/usr/bin/ssh, -l login, -F configfile, -i identityfile, -A,
-p str(port), host, interpreter]` in that fixed order (`sshArgv`), with
each optional flag pair omitted when the parameter is unset or falsy
(None, empty string, or integer 0) and `-A` omitted when agent
forwarding is not requested. -/
theorem ssh_command_fixed_order_argv :
    ∀ (c : SSHConnection) (interpreter : String) (forward_ssh_agent : Bool),
    ssh_command c interpreter forward_ssh_agent
      = .ok (sshArgv c interpreter forward_ssh_agent) :=
  fun c i f => ssh_command_eq c i f

/-- C6: without a login the remote argument is built by `%s`-formatting
the stored bytes server name into a text string, so the last argv element
is the bytes repr form (b, quote, host, quote, colon, target) rather
than `host:target`. -/
theorem scp_command_bytes_repr_without_login :
    scp_command connNoLogin (.plist [.pstr "/tmp/1.txt"]) "/tmp/2.txt"
      = .ok ["/usr/bin/scp", "-q", "-r", "/tmp/1.txt",
          "b" ++ squote ++ "localhost" ++ squote ++ ":/tmp/2.txt"]
    ∧ ("b" ++ squote ++ "localhost" ++ squote ++ ":/tmp/2.txt") ≠ "localhost:/tmp/2.txt" := by
  refine ⟨rfl, ?_⟩
  decide

/-- C7 counterexample: the empty-source failure is a builtin
`ValueError`, not the module's `SSHError`. -/
theorem scp_command_empty_files_builtin_error :
    scp_command connRoot (.plist []) "/tmp"
      = .error (.valueError "You should name at least one file to copy")
    ∧ isSSHError (.valueError "You should name at least one file to copy") = false :=
  ⟨rfl, rfl⟩

/-- C7 amended: for every connection and target, `scp_command` with an
empty source list fails, but with a builtin `ValueError` rather than the
module's single error type `SSHError`. -/
theorem scp_command_empty_files_value_error :
    ∀ (c : SSHConnection) (target : String),
    scp_command c (.plist []) target
      = .error (.valueError "You should name at least one file to copy") := by
  intro c target
  rfl

/-- C8: a scalar string passed as the source collection is not rejected:
`b_list` runs before the isinstance guard and rebinds `files` to the list
of its characters, so the guard never fires and the command is built with
one source per character. -/
theorem scp_command_iterates_string_chars :
    scp_command connRoot (.pstring "ab") "/tmp"
      = .ok ["/usr/bin/scp", "-q", "-r", "a", "b", "root@localhost:/tmp"] := rfl

/-- C9 counterexample: when the `test -d` probe exits 255, the nested
`run` raises `SSHError` and `get_scp_targets` propagates it instead of
returning the one-element target list. -/
theorem get_scp_targets_error_on_probe_255 :
    get_scp_targets connRoot (.completed "" "connect refused" 255) ["foo.txt"] "/etc/passwd"
      = .error (.sshError "connect refused")
    ∧ get_scp_targets connRoot (.completed "" "connect refused" 255) ["foo.txt"] "/etc/passwd"
      ≠ .ok ["/etc/passwd"] := by
  have he : get_scp_targets connRoot (.completed "" "connect refused" 255)
      ["foo.txt"] "/etc/passwd" = .error (.sshError "connect refused") := rfl
  refine ⟨he, fun h => ?_⟩
  rw [he] at h
  exact Except.noConfusion h

/-- C9 amended: when the probe completes with exit 0 the targets are each
filename's basename joined under the target, in order; with a nonzero
exit other than 255 the result is the literal target alone; with exit 255
the probe's `SSHError` (stripped stderr) propagates. -/
theorem get_scp_targets_characterization :
    ∀ (c : SSHConnection) (filenames : List String) (target out err : String) (rc : Int),
    (rc = 0 → get_scp_targets c (.completed out err rc) filenames target
        = .ok (filenames.map (fun fn => posixJoin target (basename fn)))) ∧
    (rc ≠ 0 → rc ≠ 255 → get_scp_targets c (.completed out err rc) filenames target
        = .ok [target]) ∧
    (rc = 255 → get_scp_targets c (.completed out err rc) filenames target
        = .error (.sshError (pyStrip err))) := by
  intro c filenames target out err rc
  unfold get_scp_targets runRes
  rw [run_eq]
  refine ⟨?_, ?_, ?_⟩
  · intro h; simp [h]
  · intro h h255; simp [h, h255]
  · intro h; simp [h]

/-- C9 witness: the two examples from the claim, with the probe answering
directory and non-directory respectively. -/
theorem get_scp_targets_characterization_witness :
    get_scp_targets connRoot (.completed "" "" 0) ["foo.txt", "bar.txt"] "/etc"
      = .ok ["/etc/foo.txt", "/etc/bar.txt"]
    ∧ get_scp_targets connRoot (.completed "" "" 1) ["foo.txt"] "/etc/passwd"
      = .ok ["/etc/passwd"] := by
  constructor
  · exact (get_scp_targets_characterization connRoot ["foo.txt", "bar.txt"]
      "/etc" "" "" 0).1 rfl
  · exact (get_scp_targets_characterization connRoot ["foo.txt"]
      "/etc/passwd" "" "" 1).2.1 (by decide) (by decide)

/-- C10 counterexample: with the integer port 0 the copy builder does not
raise at all (the falsy port omits the `-P` pair before `b` ever sees the
int), so the claim's universal statement over integer ports fails. -/
theorem scp_command_ok_on_zero_int_port :
    scp_command ⟨"localhost", some "root", some (.pint 0), none, none, none, 60⟩
        (.plist [.pstr "/tmp/1.txt"]) "/tmp/2.txt"
      = .ok ["/usr/bin/scp", "-q", "-r", "/tmp/1.txt", "root@localhost:/tmp/2.txt"] := rfl

/-- C10 amended: for every connection whose port is a nonzero integer,
`ssh_command` succeeds (the port is passed through `str()` before byte
conversion) while `scp_command` on any nonempty source list raises the
`AttributeError` from `b` on an int, which is not the module's
`SSHError`: the two builders are not total over the same
constructor-accepted port values. -/
theorem builders_asymmetric_on_int_port :
    ∀ (srv : String) (lo cf idf sock : Option String) (tmo : Nat) (n : Int)
      (fnames : List String) (target interpreter : String) (fwd : Bool),
    n ≠ 0 → fnames ≠ [] →
    ssh_command ⟨srv, lo, some (.pint n), cf, idf, sock, tmo⟩ interpreter fwd
      = .ok (sshArgv ⟨srv, lo, some (.pint n), cf, idf, sock, tmo⟩ interpreter fwd) ∧
    scp_command ⟨srv, lo, some (.pint n), cf, idf, sock, tmo⟩
        (.plist (fnames.map .pstr)) target
      = .error (.attributeError "int object has no attribute encode") := by
  intro srv lo cf idf sock tmo n fnames target interpreter fwd hn hne
  have hport : pyTruthy (.pint n) = true := by simp [pyTruthy, hn]
  have hlen : ¬ (fnames.length < 1) := by
    cases fnames with
    | nil => exact absurd rfl hne
    | cons a t => simp
  constructor
  · exact ssh_command_eq _ _ _
  · rcases lo with _ | l <;> rcases cf with _ | f1 <;> rcases idf with _ | f2 <;>
      simp [scp_command, b_list_iter_map_pstr, hport, hlen, isStringIter,
        b_list, b] <;> split_ifs <;> simp [b_list, b]

/-- C10 witness: port 2222 as an int on a root connection. -/
theorem builders_asymmetric_on_int_port_witness :
    ssh_command ⟨"localhost", some "root", some (.pint 2222), none, none, none, 60⟩
        "/bin/bash" false
      = .ok ["/usr/bin/ssh", "-l", "root", "-p", "2222", "localhost", "/bin/bash"]
    ∧ scp_command ⟨"localhost", some "root", some (.pint 2222), none, none, none, 60⟩
        (.plist [.pstr "/tmp/1.txt"]) "/tmp/2.txt"
      = .error (.attributeError "int object has no attribute encode") := by
  have h := builders_asymmetric_on_int_port "localhost" (some "root") none none none 60
    2222 ["/tmp/1.txt"] "/tmp/2.txt" "/bin/bash" false (by decide) (by decide)
  exact ⟨h.1, h.2⟩
